import Mathlib

/-!
Shallow embedding of the CH-53 trim / state-space engine found in
`statespace.py` (class `StateSpace`) and `stabilityderivatives.py`
(class `StabilityDerivatives`).  The two classes share an identical
aerodynamic model; both are embedded, each in its own namespace, so that
their equivalence can be stated and proved.

Machine floating point is idealised as the real numbers.  The physical
constants supplied by the external modules `globs.py` and
`ch53_inertia.py` (rotor geometry, masses, air density, inertia, rotor
and centre-of-gravity positions) are gathered in a `Consts` record and
kept abstract: every theorem quantifies over them.

`scipy.optimize.fsolve` is modelled as an oracle of type `Solver`: given
the residual function and the initial guess it produces an estimate
together with a convergence flag (scipy's `ier` status).  The Python
code calls `fsolve` without `full_output`, so it only ever reads the
estimate; this is mirrored by the embedding reading only the `.x` field.
-/

/-- Flight state of the helicopter: the six constructor arguments of the
Python classes (horizontal and vertical body-axis velocity, pitch rate,
fuselage pitch angle, collective pitch, longitudinal cyclic). -/
structure FlightState where
  u : ℝ
  w : ℝ
  q : ℝ
  theta_f : ℝ
  collective_pitch : ℝ
  longitudinal_cyclic : ℝ

/-- Main-rotor constants supplied by `globs.Constants` (external to the
two source files): angular speed, radius and solidity. -/
structure MainRotor where
  omega : ℝ
  radius : ℝ
  solidity : ℝ

/-- Physical constants consumed by the model.  All of them come from the
external collaborators `globs.Constants` and `CH53Inertia`; the z
positions of the rotor hub and of the centre of gravity are kept
separate so that the in-class computation `abs(motor_position.z - cg.z)`
can be embedded literally. -/
structure Consts where
  main_rotor : MainRotor
  lift_gradient : ℝ
  lock_number : ℝ
  rho : ℝ
  weight_mtow : ℝ
  mass_mtow : ℝ
  g : ℝ
  flat_plate_area : ℝ
  inertia_yy : ℝ
  rotor_position_z : ℝ
  cg_z : ℝ

/-- Result of one `scipy.optimize.fsolve` call: the estimate returned in
the solution array, and whether the search converged (scipy's `ier = 1`
status).  scipy returns the current estimate even on failure, only
emitting a warning. -/
structure FsolveResult where
  x : ℝ
  converged : Bool

/-- Abstraction of `scipy.optimize.fsolve`: residual function and
initial guess in, estimate and convergence status out. -/
def Solver : Type := (ℝ → ℝ) → ℝ → FsolveResult

/-- Python `math.radians`. -/
noncomputable def radians (x : ℝ) : ℝ := x * Real.pi / 180

namespace StateSpace

/-- `StateSpace.velocity`: magnitude of the velocity vector. -/
noncomputable def velocity (s : FlightState) : ℝ :=
  Real.sqrt (s.u ^ 2 + s.w ^ 2)

/-- `StateSpace.alpha_control`: control-plane angle of attack.  The
flight-path angle gamma is `atan(w/u)` (plus pi when `u < 0`), forced to
a vertical `±pi/2` when `u = 0`; alpha is the cyclic minus gamma. -/
noncomputable def alpha_control (s : FlightState) : ℝ :=
  let gamma :=
    if s.u ≠ 0 then
      (if s.u > 0 then Real.arctan (s.w / s.u)
       else Real.arctan (s.w / s.u) + Real.pi)
    else
      (if s.w > 0 then Real.pi / 2 else -(Real.pi / 2))
  s.longitudinal_cyclic - gamma

/-- `StateSpace.advance_ratio`. -/
noncomputable def advance_ratio (c : Consts) (s : FlightState) : ℝ :=
  (velocity s * Real.cos (alpha_control s)) / (c.main_rotor.omega * c.main_rotor.radius)

/-- `StateSpace.inflow_ratio_control`. -/
noncomputable def inflow_ratio_control (c : Consts) (s : FlightState) : ℝ :=
  (velocity s * Real.sin (alpha_control s)) / (c.main_rotor.omega * c.main_rotor.radius)

/-- `StateSpace.longitudinal_disk_tilt_func`: longitudinal disk tilt a1
as a function of an assumed inflow ratio. -/
noncomputable def longitudinal_disk_tilt_func (c : Consts) (s : FlightState) (lambda_i : ℝ) : ℝ :=
  (((8.0 / 3.0) * advance_ratio c s * s.collective_pitch)
      - (2 * advance_ratio c s * (inflow_ratio_control c s + lambda_i))
      - ((16.0 / c.lock_number) * (s.q / c.main_rotor.omega)))
    / (1 - 0.5 * advance_ratio c s ^ 2)

/-- `StateSpace.thrust_coefficient_elem`: blade-element thrust coefficient. -/
noncomputable def thrust_coefficient_elem (c : Consts) (s : FlightState) (lambda_i : ℝ) : ℝ :=
  (0.25 * c.lift_gradient * c.main_rotor.solidity)
    * ((2.0 / 3.0) * s.collective_pitch * (1 + 1.5 * advance_ratio c s ^ 2)
        - (inflow_ratio_control c s + lambda_i))

/-- `StateSpace.thrust_coefficient_glau`: Glauert thrust coefficient. -/
noncomputable def thrust_coefficient_glau (c : Consts) (s : FlightState) (lambda_i : ℝ) : ℝ :=
  2 * lambda_i * Real.sqrt
    (((velocity s / (c.main_rotor.omega * c.main_rotor.radius))
        * Real.cos (alpha_control s - longitudinal_disk_tilt_func c s lambda_i)) ^ 2
      + ((velocity s / (c.main_rotor.omega * c.main_rotor.radius))
          * Real.sin (alpha_control s - longitudinal_disk_tilt_func c s lambda_i) + lambda_i) ^ 2)

/-- `StateSpace.hover_induced_velocity`. -/
noncomputable def hover_induced_velocity (c : Consts) : ℝ :=
  Real.sqrt (c.weight_mtow / (2 * c.rho * Real.pi * c.main_rotor.radius ^ 2))

/-- Residual handed to `fsolve` inside `StateSpace.inflow_ratio`:
difference of the two thrust-coefficient formulations. -/
noncomputable def inflow_residual (c : Consts) (s : FlightState) (lambda_i : ℝ) : ℝ :=
  thrust_coefficient_elem c s lambda_i - thrust_coefficient_glau c s lambda_i

/-- `StateSpace.inflow_ratio`: closed-form hover value when the velocity
is zero, otherwise the first component of the `fsolve` output for the
residual, started from 2e-2.  The convergence flag is never consulted. -/
noncomputable def inflow_ratio (solver : Solver) (c : Consts) (s : FlightState) : ℝ :=
  if velocity s = 0 then
    hover_induced_velocity c / (c.main_rotor.omega * c.main_rotor.radius)
  else
    (solver (inflow_residual c s) 0.02).x

/-- `StateSpace.longitudinal_disk_tilt`. -/
noncomputable def longitudinal_disk_tilt (solver : Solver) (c : Consts) (s : FlightState) : ℝ :=
  longitudinal_disk_tilt_func c s (inflow_ratio solver c s)

/-- `StateSpace.thrust`. -/
noncomputable def thrust (solver : Solver) (c : Consts) (s : FlightState) : ℝ :=
  thrust_coefficient_elem c s (inflow_ratio solver c s) * c.rho
    * (c.main_rotor.omega * c.main_rotor.radius) ^ 2 * Real.pi * c.main_rotor.radius ^ 2

/-- `StateSpace.rotor_distance_to_cg`: `abs(motor_position.z - cg.z)`. -/
noncomputable def rotor_distance_to_cg (c : Consts) : ℝ :=
  |c.rotor_position_z - c.cg_z|

/-- `StateSpace.drag`: equivalent-flat-plate-area drag. -/
noncomputable def drag (c : Consts) (s : FlightState) : ℝ :=
  c.flat_plate_area * 0.5 * c.rho * velocity s ^ 2

/-- `StateSpace.u_dot`: body x-axis acceleration; the drag term is set
to zero when the velocity is zero. -/
noncomputable def u_dot (solver : Solver) (c : Consts) (s : FlightState) : ℝ :=
  (-c.g) * Real.sin s.theta_f
    - (if velocity s ≠ 0 then (drag c s * s.u) / (c.mass_mtow * velocity s) else 0)
    + (thrust solver c s / c.mass_mtow)
        * Real.sin (s.longitudinal_cyclic - longitudinal_disk_tilt solver c s)
    - s.q * s.w

/-- `StateSpace.w_dot`: body z-axis acceleration (positive down); the
drag term is set to zero when the velocity is zero. -/
noncomputable def w_dot (solver : Solver) (c : Consts) (s : FlightState) : ℝ :=
  c.g * Real.cos s.theta_f
    - (if velocity s ≠ 0 then (drag c s * s.w) / (c.mass_mtow * velocity s) else 0)
    - (thrust solver c s / c.mass_mtow)
        * Real.cos (s.longitudinal_cyclic - longitudinal_disk_tilt solver c s)
    + s.q * s.u

/-- `StateSpace.q_dot`: pitch acceleration. -/
noncomputable def q_dot (solver : Solver) (c : Consts) (s : FlightState) : ℝ :=
  (-thrust solver c s / c.inertia_yy) * rotor_distance_to_cg c
    * Real.sin (s.longitudinal_cyclic - longitudinal_disk_tilt solver c s)

/-- `StateSpace.theta_f_dot`. -/
noncomputable def theta_f_dot (s : FlightState) : ℝ := s.q

/-- Time grid of `StateSpace.plot_response`: `np.linspace(0, 2, 100)`. -/
noncomputable def time_grid (i : ℕ) : ℝ := (i : ℝ) * (2 / 99)

/-- Step size of `StateSpace.plot_response`: `time[1] - time[0]`. -/
noncomputable def delta_t : ℝ := time_grid 1 - time_grid 0

/-- Emitted cyclic series of `StateSpace.plot_response`: the list is
seeded with the literal `0`; for `i ≥ 1` the entry is the base cyclic
plus one degree while `0.5 < t[i] < 1.0`, else the base cyclic. -/
noncomputable def cyclic_input (base : ℝ) (i : ℕ) : ℝ :=
  if i = 0 then 0
  else if 0.5 < time_grid i ∧ time_grid i < 1.0 then base + radians 1.0
  else base

/-- States produced by the forward-Euler loop of
`StateSpace.plot_response`: index 0 is the initial object `self`; the
state at index `i+1` advances every dynamic component of the state at
index `i` by its time derivative times `delta_t`, takes its cyclic from
the schedule at index `i+1` and keeps the initial collective. -/
noncomputable def response_state (solver : Solver) (c : Consts) (s0 : FlightState) :
    ℕ → FlightState
  | 0 => s0
  | i + 1 =>
    let p := response_state solver c s0 i
    { u := p.u + u_dot solver c p * delta_t
      w := p.w + w_dot solver c p * delta_t
      q := p.q + q_dot solver c p * delta_t
      theta_f := p.theta_f + theta_f_dot p * delta_t
      collective_pitch := s0.collective_pitch
      longitudinal_cyclic := cyclic_input s0.longitudinal_cyclic (i + 1) }

/-- The full 100-entry state sequence built by `StateSpace.plot_response`. -/
noncomputable def response_states (solver : Solver) (c : Consts) (s0 : FlightState) :
    List FlightState :=
  (List.range 100).map (response_state solver c s0)

end StateSpace

namespace StabilityDerivatives

/-- `StabilityDerivatives.velocity`: magnitude of the velocity vector. -/
noncomputable def velocity (s : FlightState) : ℝ :=
  Real.sqrt (s.u ^ 2 + s.w ^ 2)

/-- `StabilityDerivatives.alpha_control`: control-plane angle of attack,
duplicated verbatim from the other class. -/
noncomputable def alpha_control (s : FlightState) : ℝ :=
  let gamma :=
    if s.u ≠ 0 then
      (if s.u > 0 then Real.arctan (s.w / s.u)
       else Real.arctan (s.w / s.u) + Real.pi)
    else
      (if s.w > 0 then Real.pi / 2 else -(Real.pi / 2))
  s.longitudinal_cyclic - gamma

/-- `StabilityDerivatives.advance_ratio`. -/
noncomputable def advance_ratio (c : Consts) (s : FlightState) : ℝ :=
  (velocity s * Real.cos (alpha_control s)) / (c.main_rotor.omega * c.main_rotor.radius)

/-- `StabilityDerivatives.inflow_ratio_control`. -/
noncomputable def inflow_ratio_control (c : Consts) (s : FlightState) : ℝ :=
  (velocity s * Real.sin (alpha_control s)) / (c.main_rotor.omega * c.main_rotor.radius)

/-- `StabilityDerivatives.longitudinal_disk_tilt_func`. -/
noncomputable def longitudinal_disk_tilt_func (c : Consts) (s : FlightState) (lambda_i : ℝ) : ℝ :=
  (((8.0 / 3.0) * advance_ratio c s * s.collective_pitch)
      - (2 * advance_ratio c s * (inflow_ratio_control c s + lambda_i))
      - ((16.0 / c.lock_number) * (s.q / c.main_rotor.omega)))
    / (1 - 0.5 * advance_ratio c s ^ 2)

/-- `StabilityDerivatives.thrust_coefficient_elem`. -/
noncomputable def thrust_coefficient_elem (c : Consts) (s : FlightState) (lambda_i : ℝ) : ℝ :=
  (0.25 * c.lift_gradient * c.main_rotor.solidity)
    * ((2.0 / 3.0) * s.collective_pitch * (1 + 1.5 * advance_ratio c s ^ 2)
        - (inflow_ratio_control c s + lambda_i))

/-- `StabilityDerivatives.thrust_coefficient_glau`. -/
noncomputable def thrust_coefficient_glau (c : Consts) (s : FlightState) (lambda_i : ℝ) : ℝ :=
  2 * lambda_i * Real.sqrt
    (((velocity s / (c.main_rotor.omega * c.main_rotor.radius))
        * Real.cos (alpha_control s - longitudinal_disk_tilt_func c s lambda_i)) ^ 2
      + ((velocity s / (c.main_rotor.omega * c.main_rotor.radius))
          * Real.sin (alpha_control s - longitudinal_disk_tilt_func c s lambda_i) + lambda_i) ^ 2)

/-- `StabilityDerivatives.hover_induced_velocity`. -/
noncomputable def hover_induced_velocity (c : Consts) : ℝ :=
  Real.sqrt (c.weight_mtow / (2 * c.rho * Real.pi * c.main_rotor.radius ^ 2))

/-- Residual handed to `fsolve` inside `StabilityDerivatives.inflow_ratio`. -/
noncomputable def inflow_residual (c : Consts) (s : FlightState) (lambda_i : ℝ) : ℝ :=
  thrust_coefficient_elem c s lambda_i - thrust_coefficient_glau c s lambda_i

/-- `StabilityDerivatives.inflow_ratio`. -/
noncomputable def inflow_ratio (solver : Solver) (c : Consts) (s : FlightState) : ℝ :=
  if velocity s = 0 then
    hover_induced_velocity c / (c.main_rotor.omega * c.main_rotor.radius)
  else
    (solver (inflow_residual c s) 0.02).x

/-- `StabilityDerivatives.longitudinal_disk_tilt`. -/
noncomputable def longitudinal_disk_tilt (solver : Solver) (c : Consts) (s : FlightState) : ℝ :=
  longitudinal_disk_tilt_func c s (inflow_ratio solver c s)

/-- `StabilityDerivatives.thrust`. -/
noncomputable def thrust (solver : Solver) (c : Consts) (s : FlightState) : ℝ :=
  thrust_coefficient_elem c s (inflow_ratio solver c s) * c.rho
    * (c.main_rotor.omega * c.main_rotor.radius) ^ 2 * Real.pi * c.main_rotor.radius ^ 2

/-- `StabilityDerivatives.rotor_distance_to_cg`. -/
noncomputable def rotor_distance_to_cg (c : Consts) : ℝ :=
  |c.rotor_position_z - c.cg_z|

/-- `StabilityDerivatives.drag`. -/
noncomputable def drag (c : Consts) (s : FlightState) : ℝ :=
  c.flat_plate_area * 0.5 * c.rho * velocity s ^ 2

/-- `StabilityDerivatives.u_dot`. -/
noncomputable def u_dot (solver : Solver) (c : Consts) (s : FlightState) : ℝ :=
  (-c.g) * Real.sin s.theta_f
    - (if velocity s ≠ 0 then (drag c s * s.u) / (c.mass_mtow * velocity s) else 0)
    + (thrust solver c s / c.mass_mtow)
        * Real.sin (s.longitudinal_cyclic - longitudinal_disk_tilt solver c s)
    - s.q * s.w

/-- `StabilityDerivatives.w_dot`. -/
noncomputable def w_dot (solver : Solver) (c : Consts) (s : FlightState) : ℝ :=
  c.g * Real.cos s.theta_f
    - (if velocity s ≠ 0 then (drag c s * s.w) / (c.mass_mtow * velocity s) else 0)
    - (thrust solver c s / c.mass_mtow)
        * Real.cos (s.longitudinal_cyclic - longitudinal_disk_tilt solver c s)
    + s.q * s.u

/-- `StabilityDerivatives.q_dot`. -/
noncomputable def q_dot (solver : Solver) (c : Consts) (s : FlightState) : ℝ :=
  (-thrust solver c s / c.inertia_yy) * rotor_distance_to_cg c
    * Real.sin (s.longitudinal_cyclic - longitudinal_disk_tilt solver c s)

/-- `StabilityDerivatives.theta_f_dot`. -/
noncomputable def theta_f_dot (s : FlightState) : ℝ := s.q

/-- Perturbation grid `np.linspace(-10, 10, 100)` used by the velocity
axes (`u_derivatives`, `w_derivatives`). -/
noncomputable def lin_grid : List ℝ :=
  (List.range 100).map (fun (k : ℕ) => -10 + (k : ℝ) * (20 / 99))

/-- Perturbation grid `np.linspace(radians(-10), radians(10), 100)` used
by the angular axes. -/
noncomputable def rad_grid : List ℝ :=
  (List.range 100).map
    (fun (k : ℕ) => radians (-10) + (k : ℝ) * ((radians 10 - radians (-10)) / 99))

/-- `StabilityDerivatives.u_derivatives`: per-sample acceleration-over-
offset ratios over `lin_grid` with only `u` shifted, averaged by
`np.mean` (sum over the 100 samples divided by 100). -/
noncomputable def u_derivatives (solver : Solver) (c : Consts) (s : FlightState) :
    ℝ × ℝ × ℝ × ℝ :=
  ((lin_grid.map (fun i => u_dot solver c { s with u := s.u + i } / i)).sum / 100,
   (lin_grid.map (fun i => w_dot solver c { s with u := s.u + i } / i)).sum / 100,
   (lin_grid.map (fun i => q_dot solver c { s with u := s.u + i } / i)).sum / 100,
   (lin_grid.map (fun i => theta_f_dot { s with u := s.u + i } / i)).sum / 100)

/-- `StabilityDerivatives.w_derivatives`. -/
noncomputable def w_derivatives (solver : Solver) (c : Consts) (s : FlightState) :
    ℝ × ℝ × ℝ × ℝ :=
  ((lin_grid.map (fun i => u_dot solver c { s with w := s.w + i } / i)).sum / 100,
   (lin_grid.map (fun i => w_dot solver c { s with w := s.w + i } / i)).sum / 100,
   (lin_grid.map (fun i => q_dot solver c { s with w := s.w + i } / i)).sum / 100,
   (lin_grid.map (fun i => theta_f_dot { s with w := s.w + i } / i)).sum / 100)

/-- `StabilityDerivatives.q_derivatives`. -/
noncomputable def q_derivatives (solver : Solver) (c : Consts) (s : FlightState) :
    ℝ × ℝ × ℝ × ℝ :=
  ((rad_grid.map (fun i => u_dot solver c { s with q := s.q + i } / i)).sum / 100,
   (rad_grid.map (fun i => w_dot solver c { s with q := s.q + i } / i)).sum / 100,
   (rad_grid.map (fun i => q_dot solver c { s with q := s.q + i } / i)).sum / 100,
   (rad_grid.map (fun i => theta_f_dot { s with q := s.q + i } / i)).sum / 100)

/-- `StabilityDerivatives.theta_f_derivatives`. -/
noncomputable def theta_f_derivatives (solver : Solver) (c : Consts) (s : FlightState) :
    ℝ × ℝ × ℝ × ℝ :=
  ((rad_grid.map (fun i => u_dot solver c { s with theta_f := s.theta_f + i } / i)).sum / 100,
   (rad_grid.map (fun i => w_dot solver c { s with theta_f := s.theta_f + i } / i)).sum / 100,
   (rad_grid.map (fun i => q_dot solver c { s with theta_f := s.theta_f + i } / i)).sum / 100,
   (rad_grid.map (fun i => theta_f_dot { s with theta_f := s.theta_f + i } / i)).sum / 100)

/-- `StabilityDerivatives.collective_derivatives`. -/
noncomputable def collective_derivatives (solver : Solver) (c : Consts) (s : FlightState) :
    ℝ × ℝ × ℝ × ℝ :=
  ((rad_grid.map
      (fun i => u_dot solver c { s with collective_pitch := s.collective_pitch + i } / i)).sum / 100,
   (rad_grid.map
      (fun i => w_dot solver c { s with collective_pitch := s.collective_pitch + i } / i)).sum / 100,
   (rad_grid.map
      (fun i => q_dot solver c { s with collective_pitch := s.collective_pitch + i } / i)).sum / 100,
   (rad_grid.map
      (fun i => theta_f_dot { s with collective_pitch := s.collective_pitch + i } / i)).sum / 100)

/-- `StabilityDerivatives.cyclic_derivatives`. -/
noncomputable def cyclic_derivatives (solver : Solver) (c : Consts) (s : FlightState) :
    ℝ × ℝ × ℝ × ℝ :=
  ((rad_grid.map
      (fun i =>
        u_dot solver c { s with longitudinal_cyclic := s.longitudinal_cyclic + i } / i)).sum / 100,
   (rad_grid.map
      (fun i =>
        w_dot solver c { s with longitudinal_cyclic := s.longitudinal_cyclic + i } / i)).sum / 100,
   (rad_grid.map
      (fun i =>
        q_dot solver c { s with longitudinal_cyclic := s.longitudinal_cyclic + i } / i)).sum / 100,
   (rad_grid.map
      (fun i =>
        theta_f_dot { s with longitudinal_cyclic := s.longitudinal_cyclic + i } / i)).sum / 100)

end StabilityDerivatives

/-- Arithmetic mean of a list of reals, as the specification words it:
the sum of the samples divided by how many there are. -/
noncomputable def listMean (xs : List ℝ) : ℝ := xs.sum / (xs.length : ℝ)

/-- A concrete set of physical constants, used to instantiate theorems
with hypotheses at explicit inputs. -/
noncomputable def c_unit : Consts :=
  { main_rotor := { omega := 1, radius := 1, solidity := 1 }
    lift_gradient := 1
    lock_number := 1
    rho := 1
    weight_mtow := 1
    mass_mtow := 1
    g := 1
    flat_plate_area := 1
    inertia_yy := 1
    rotor_position_z := 1
    cg_z := 0 }

/-- The all-zero flight state (a pure hover with neutral controls). -/
noncomputable def hover_state : FlightState :=
  { u := 0, w := 0, q := 0, theta_f := 0, collective_pitch := 0, longitudinal_cyclic := 0 }

/-- A flight state with unit horizontal velocity, so that `V > 0`. -/
noncomputable def forward_state : FlightState :=
  { u := 1, w := 0, q := 0, theta_f := 0, collective_pitch := 0, longitudinal_cyclic := 0 }

/-- An oracle standing for an `fsolve` call that fails to converge:
scipy then returns its current estimate (here 42) with `ier ≠ 1`,
merely printing a warning. -/
noncomputable def bad_solver : Solver := fun _ _ => { x := 42, converged := false }

theorem velocity_hover_state : StateSpace.velocity hover_state = 0 := by
  norm_num [StateSpace.velocity, hover_state, Real.sqrt_zero]

theorem velocity_forward_state : StateSpace.velocity forward_state = 1 := by
  norm_num [StateSpace.velocity, forward_state, Real.sqrt_one]

/-- C1: for every flight state, the equilibrium model returns the four
body-axis accelerations given by the specified formulas, with the drag
terms of `u_dot` and `w_dot` set to zero when `V = 0` (no division by
`V`), and with `d_cg` the absolute rotor-hub-to-CG vertical offset in
the pitch-acceleration formula. -/
theorem equilibrium_accelerations_formulas (solver : Solver) (c : Consts) (s : FlightState) :
    StateSpace.u_dot solver c s =
      -(c.g * Real.sin s.theta_f)
        - (if StateSpace.velocity s = 0 then 0
           else StateSpace.drag c s * s.u / (c.mass_mtow * StateSpace.velocity s))
        + (StateSpace.thrust solver c s / c.mass_mtow)
            * Real.sin (s.longitudinal_cyclic - StateSpace.longitudinal_disk_tilt solver c s)
        - s.q * s.w
    ∧ StateSpace.w_dot solver c s =
        c.g * Real.cos s.theta_f
          - (if StateSpace.velocity s = 0 then 0
             else StateSpace.drag c s * s.w / (c.mass_mtow * StateSpace.velocity s))
          - (StateSpace.thrust solver c s / c.mass_mtow)
              * Real.cos (s.longitudinal_cyclic - StateSpace.longitudinal_disk_tilt solver c s)
          + s.q * s.u
    ∧ StateSpace.q_dot solver c s =
        -(StateSpace.thrust solver c s / c.inertia_yy) * |c.rotor_position_z - c.cg_z|
          * Real.sin (s.longitudinal_cyclic - StateSpace.longitudinal_disk_tilt solver c s)
    ∧ StateSpace.theta_f_dot s = s.q := by
  refine ⟨?_, ?_, ?_, rfl⟩
  · by_cases h : StateSpace.velocity s = 0 <;>
      simp [StateSpace.u_dot, h]
  · by_cases h : StateSpace.velocity s = 0 <;>
      simp [StateSpace.w_dot, h]
  · show (-StateSpace.thrust solver c s / c.inertia_yy) * StateSpace.rotor_distance_to_cg c
        * Real.sin (s.longitudinal_cyclic - StateSpace.longitudinal_disk_tilt solver c s) = _
    rw [StateSpace.rotor_distance_to_cg]
    ring

/-- C2: whenever `V = sqrt(u^2 + w^2) = 0`, the inflow solver returns the
closed-form hover value `sqrt(W/(2 rho pi R^2))/(Omega R)` directly, for
all weights, densities, radii and rotor speeds; the root-finding oracle
is never consulted (the result is the same for every oracle). -/
theorem inflow_hover_closed_form (solver solver2 : Solver) (c : Consts) (s : FlightState)
    (h : StateSpace.velocity s = 0) :
    StateSpace.inflow_ratio solver c s =
      Real.sqrt (c.weight_mtow / (2 * c.rho * Real.pi * c.main_rotor.radius ^ 2))
        / (c.main_rotor.omega * c.main_rotor.radius)
    ∧ StateSpace.inflow_ratio solver c s = StateSpace.inflow_ratio solver2 c s := by
  constructor <;> simp [StateSpace.inflow_ratio, h, StateSpace.hover_induced_velocity]

/-- Witness for C2 at the all-zero hover state with unit constants. -/
theorem inflow_hover_closed_form_witness :
    StateSpace.velocity hover_state = 0
    ∧ (StateSpace.inflow_ratio bad_solver c_unit hover_state =
        Real.sqrt (c_unit.weight_mtow
            / (2 * c_unit.rho * Real.pi * c_unit.main_rotor.radius ^ 2))
          / (c_unit.main_rotor.omega * c_unit.main_rotor.radius)
      ∧ StateSpace.inflow_ratio bad_solver c_unit hover_state =
          StateSpace.inflow_ratio (fun _ _ => { x := 0, converged := true }) c_unit hover_state) :=
  ⟨velocity_hover_state,
    inflow_hover_closed_form bad_solver (fun _ _ => { x := 0, converged := true }) c_unit
      hover_state velocity_hover_state⟩

/-- C3 counterexample: at a state with `V > 0` and an `fsolve` oracle
that fails to converge, the code silently returns the unconverged
estimate (42) — no `InflowConvergenceError` is raised or propagated;
indeed no such exception exists anywhere in the source. -/
theorem inflow_no_convergence_error_counterexample :
    StateSpace.inflow_ratio bad_solver c_unit forward_state = 42
    ∧ (bad_solver (StateSpace.inflow_residual c_unit forward_state) 0.02).converged = false := by
  constructor
  · have h : StateSpace.velocity forward_state ≠ 0 := by
      rw [velocity_forward_state]; norm_num
    simp [StateSpace.inflow_ratio, h, bad_solver]
  · rfl

/-- C3 amended: for every flight state with `V > 0`, the inflow solver
returns exactly the estimate produced by the `fsolve` oracle for the
thrust-coefficient residual started at 0.02, whether or not the search
converged; the convergence flag is never inspected and no error path
exists. -/
theorem inflow_forward_returns_solver_output (solver : Solver) (c : Consts) (s : FlightState)
    (h : StateSpace.velocity s ≠ 0) :
    StateSpace.inflow_ratio solver c s = (solver (StateSpace.inflow_residual c s) 0.02).x := by
  simp [StateSpace.inflow_ratio, h]

/-- Witness for the amended C3 at a concrete forward-flight state. -/
theorem inflow_forward_returns_solver_output_witness :
    StateSpace.velocity forward_state ≠ 0
    ∧ StateSpace.inflow_ratio bad_solver c_unit forward_state =
        (bad_solver (StateSpace.inflow_residual c_unit forward_state) 0.02).x := by
  have h : StateSpace.velocity forward_state ≠ 0 := by
    rw [velocity_forward_state]; norm_num
  exact ⟨h, inflow_forward_returns_solver_output bad_solver c_unit forward_state h⟩

/-- C10: the duplicated model code in `statespace.py` and
`stabilityderivatives.py` denotes the same function: for every oracle,
constants and flight state the two classes compute identical inflow
ratios and identical values of all four accelerations. -/
theorem duplicated_engines_agree (solver : Solver) (c : Consts) (s : FlightState) :
    StabilityDerivatives.inflow_ratio solver c s = StateSpace.inflow_ratio solver c s
    ∧ StabilityDerivatives.u_dot solver c s = StateSpace.u_dot solver c s
    ∧ StabilityDerivatives.w_dot solver c s = StateSpace.w_dot solver c s
    ∧ StabilityDerivatives.q_dot solver c s = StateSpace.q_dot solver c s
    ∧ StabilityDerivatives.theta_f_dot s = StateSpace.theta_f_dot s :=
  ⟨rfl, rfl, rfl, rfl, rfl⟩

/-- C4: the integrator of `StateSpace.plot_response` advances each of
`u`, `w`, `q`, `theta_f` by explicit Euler from the previous state, with
step `delta_t = horizon / (stepCount - 1) = 2 / (100 - 1)`; the produced
sequence has exactly 100 entries and entry 0 is the unmodified initial
state at time 0. -/
theorem euler_integration_scheme (solver : Solver) (c : Consts) (s0 : FlightState) :
    (StateSpace.response_states solver c s0).length = 100
    ∧ (StateSpace.response_states solver c s0)[0]? = some s0
    ∧ StateSpace.response_state solver c s0 0 = s0
    ∧ StateSpace.time_grid 0 = 0
    ∧ StateSpace.delta_t = 2 / (100 - 1)
    ∧ ∀ i : ℕ,
        (StateSpace.response_state solver c s0 (i + 1)).u =
            (StateSpace.response_state solver c s0 i).u
              + StateSpace.u_dot solver c (StateSpace.response_state solver c s0 i)
                  * StateSpace.delta_t
        ∧ (StateSpace.response_state solver c s0 (i + 1)).w =
            (StateSpace.response_state solver c s0 i).w
              + StateSpace.w_dot solver c (StateSpace.response_state solver c s0 i)
                  * StateSpace.delta_t
        ∧ (StateSpace.response_state solver c s0 (i + 1)).q =
            (StateSpace.response_state solver c s0 i).q
              + StateSpace.q_dot solver c (StateSpace.response_state solver c s0 i)
                  * StateSpace.delta_t
        ∧ (StateSpace.response_state solver c s0 (i + 1)).theta_f =
            (StateSpace.response_state solver c s0 i).theta_f
              + StateSpace.theta_f_dot (StateSpace.response_state solver c s0 i)
                  * StateSpace.delta_t := by
  refine ⟨?_, ?_, rfl, ?_, ?_, fun i => ⟨rfl, rfl, rfl, rfl⟩⟩
  · simp [StateSpace.response_states]
  · simp [StateSpace.response_states, StateSpace.response_state]
  · norm_num [StateSpace.time_grid]
  · norm_num [StateSpace.delta_t, StateSpace.time_grid]

/-- C5 counterexample: take a run whose base longitudinal cyclic is 1
radian.  The time series emitted for the cyclic is seeded with the
literal `0` at `t = 0`, although `t = 0` lies outside the pulse window
and the claim therefore demands the base value 1 there. -/
theorem cyclic_emitted_at_zero_counterexample :
    StateSpace.cyclic_input 1 0 ≠ (1 : ℝ) := by
  norm_num [StateSpace.cyclic_input]

/-- C5 amended: the emitted cyclic entry at `t = 0` is the hardcoded
literal 0 (not the base cyclic); for every step `i ≥ 1` the cyclic
carried by the stepped state equals the emitted schedule value, namely
the base cyclic plus 1 degree in radians exactly when
`0.5 < t[i] < 1.0` and the base cyclic otherwise; the state at index 0
carries the base cyclic; the cyclic is never integrated (it is always
taken from the schedule) and the collective pitch of every stepped
state equals the initial collective unchanged. -/
theorem cyclic_schedule_properties (solver : Solver) (c : Consts) (s0 : FlightState) :
    StateSpace.cyclic_input s0.longitudinal_cyclic 0 = 0
    ∧ (StateSpace.response_state solver c s0 0).longitudinal_cyclic = s0.longitudinal_cyclic
    ∧ (∀ i : ℕ, 1 ≤ i →
        (StateSpace.response_state solver c s0 i).longitudinal_cyclic =
            StateSpace.cyclic_input s0.longitudinal_cyclic i
          ∧ StateSpace.cyclic_input s0.longitudinal_cyclic i =
              (if 0.5 < StateSpace.time_grid i ∧ StateSpace.time_grid i < 1.0
               then s0.longitudinal_cyclic + radians 1.0
               else s0.longitudinal_cyclic))
    ∧ ∀ i : ℕ, (StateSpace.response_state solver c s0 i).collective_pitch =
        s0.collective_pitch := by
  refine ⟨by simp [StateSpace.cyclic_input], rfl, fun i hi => ?_, fun i => ?_⟩
  · match i, hi with
    | j + 1, _ =>
      refine ⟨rfl, ?_⟩
      simp [StateSpace.cyclic_input]
  · cases i <;> rfl

/-- Witness for the amended C5 at step 1 of a concrete run. -/
theorem cyclic_schedule_properties_witness :
    (1 : ℕ) ≤ 1
    ∧ ((StateSpace.response_state bad_solver c_unit hover_state 1).longitudinal_cyclic =
          StateSpace.cyclic_input hover_state.longitudinal_cyclic 1
        ∧ StateSpace.cyclic_input hover_state.longitudinal_cyclic 1 =
            (if 0.5 < StateSpace.time_grid 1 ∧ StateSpace.time_grid 1 < 1.0
             then hover_state.longitudinal_cyclic + radians 1.0
             else hover_state.longitudinal_cyclic)) :=
  ⟨le_refl 1,
    (cyclic_schedule_properties bad_solver c_unit hover_state).2.2.1 1 (le_refl 1)⟩

theorem lin_grid_length : StabilityDerivatives.lin_grid.length = 100 := by
  unfold StabilityDerivatives.lin_grid
  rw [List.length_map, List.length_range]

theorem rad_grid_length : StabilityDerivatives.rad_grid.length = 100 := by
  unfold StabilityDerivatives.rad_grid
  rw [List.length_map, List.length_range]

theorem listMean_lin_grid (f : ℝ → ℝ) :
    listMean (StabilityDerivatives.lin_grid.map f) =
      (StabilityDerivatives.lin_grid.map f).sum / 100 := by
  rw [listMean, List.length_map, lin_grid_length]
  norm_num

theorem listMean_rad_grid (f : ℝ → ℝ) :
    listMean (StabilityDerivatives.rad_grid.map f) =
      (StabilityDerivatives.rad_grid.map f).sum / 100 := by
  rw [listMean, List.length_map, rad_grid_length]
  norm_num

/-- C6: for every axis among `u`, `w`, `q`, `theta_f`, collective and
cyclic, the estimator returns, for each of the four accelerations, the
arithmetic mean over the 100-point evenly spaced grid spanning -10..10
(m/s for the velocity axes, -10..10 degrees in radians for the angular
axes) of the acceleration at the state with only that axis shifted by
the offset, divided by the offset — a mean of per-sample secant ratios. -/
theorem derivative_estimates_are_mean_of_secants (solver : Solver) (c : Consts)
    (s : FlightState) :
    StabilityDerivatives.lin_grid.length = 100
    ∧ (-10 : ℝ) ∈ StabilityDerivatives.lin_grid
    ∧ (10 : ℝ) ∈ StabilityDerivatives.lin_grid
    ∧ radians (-10) ∈ StabilityDerivatives.rad_grid
    ∧ radians 10 ∈ StabilityDerivatives.rad_grid
    ∧ StabilityDerivatives.rad_grid.length = 100
    ∧ StabilityDerivatives.u_derivatives solver c s =
        (listMean (StabilityDerivatives.lin_grid.map
            (fun d => StabilityDerivatives.u_dot solver c { s with u := s.u + d } / d)),
         listMean (StabilityDerivatives.lin_grid.map
            (fun d => StabilityDerivatives.w_dot solver c { s with u := s.u + d } / d)),
         listMean (StabilityDerivatives.lin_grid.map
            (fun d => StabilityDerivatives.q_dot solver c { s with u := s.u + d } / d)),
         listMean (StabilityDerivatives.lin_grid.map
            (fun d => StabilityDerivatives.theta_f_dot { s with u := s.u + d } / d)))
    ∧ StabilityDerivatives.w_derivatives solver c s =
        (listMean (StabilityDerivatives.lin_grid.map
            (fun d => StabilityDerivatives.u_dot solver c { s with w := s.w + d } / d)),
         listMean (StabilityDerivatives.lin_grid.map
            (fun d => StabilityDerivatives.w_dot solver c { s with w := s.w + d } / d)),
         listMean (StabilityDerivatives.lin_grid.map
            (fun d => StabilityDerivatives.q_dot solver c { s with w := s.w + d } / d)),
         listMean (StabilityDerivatives.lin_grid.map
            (fun d => StabilityDerivatives.theta_f_dot { s with w := s.w + d } / d)))
    ∧ StabilityDerivatives.q_derivatives solver c s =
        (listMean (StabilityDerivatives.rad_grid.map
            (fun d => StabilityDerivatives.u_dot solver c { s with q := s.q + d } / d)),
         listMean (StabilityDerivatives.rad_grid.map
            (fun d => StabilityDerivatives.w_dot solver c { s with q := s.q + d } / d)),
         listMean (StabilityDerivatives.rad_grid.map
            (fun d => StabilityDerivatives.q_dot solver c { s with q := s.q + d } / d)),
         listMean (StabilityDerivatives.rad_grid.map
            (fun d => StabilityDerivatives.theta_f_dot { s with q := s.q + d } / d)))
    ∧ StabilityDerivatives.theta_f_derivatives solver c s =
        (listMean (StabilityDerivatives.rad_grid.map
            (fun d =>
              StabilityDerivatives.u_dot solver c { s with theta_f := s.theta_f + d } / d)),
         listMean (StabilityDerivatives.rad_grid.map
            (fun d =>
              StabilityDerivatives.w_dot solver c { s with theta_f := s.theta_f + d } / d)),
         listMean (StabilityDerivatives.rad_grid.map
            (fun d =>
              StabilityDerivatives.q_dot solver c { s with theta_f := s.theta_f + d } / d)),
         listMean (StabilityDerivatives.rad_grid.map
            (fun d =>
              StabilityDerivatives.theta_f_dot { s with theta_f := s.theta_f + d } / d)))
    ∧ StabilityDerivatives.collective_derivatives solver c s =
        (listMean (StabilityDerivatives.rad_grid.map
            (fun d => StabilityDerivatives.u_dot solver c
                { s with collective_pitch := s.collective_pitch + d } / d)),
         listMean (StabilityDerivatives.rad_grid.map
            (fun d => StabilityDerivatives.w_dot solver c
                { s with collective_pitch := s.collective_pitch + d } / d)),
         listMean (StabilityDerivatives.rad_grid.map
            (fun d => StabilityDerivatives.q_dot solver c
                { s with collective_pitch := s.collective_pitch + d } / d)),
         listMean (StabilityDerivatives.rad_grid.map
            (fun d => StabilityDerivatives.theta_f_dot
                { s with collective_pitch := s.collective_pitch + d } / d)))
    ∧ StabilityDerivatives.cyclic_derivatives solver c s =
        (listMean (StabilityDerivatives.rad_grid.map
            (fun d => StabilityDerivatives.u_dot solver c
                { s with longitudinal_cyclic := s.longitudinal_cyclic + d } / d)),
         listMean (StabilityDerivatives.rad_grid.map
            (fun d => StabilityDerivatives.w_dot solver c
                { s with longitudinal_cyclic := s.longitudinal_cyclic + d } / d)),
         listMean (StabilityDerivatives.rad_grid.map
            (fun d => StabilityDerivatives.q_dot solver c
                { s with longitudinal_cyclic := s.longitudinal_cyclic + d } / d)),
         listMean (StabilityDerivatives.rad_grid.map
            (fun d => StabilityDerivatives.theta_f_dot
                { s with longitudinal_cyclic := s.longitudinal_cyclic + d } / d))) := by
  refine ⟨lin_grid_length, ?_, ?_, ?_, ?_, rad_grid_length, ?_, ?_, ?_, ?_, ?_, ?_⟩
  · refine List.mem_map.mpr ⟨0, ?_, ?_⟩ <;> norm_num
  · refine List.mem_map.mpr ⟨99, ?_, ?_⟩ <;> norm_num
  · refine List.mem_map.mpr ⟨0, ?_, ?_⟩ <;> norm_num
  · refine List.mem_map.mpr ⟨99, ?_, ?_⟩
    · norm_num
    · unfold radians; push_cast; ring
  · rw [listMean_lin_grid, listMean_lin_grid, listMean_lin_grid, listMean_lin_grid]; rfl
  · rw [listMean_lin_grid, listMean_lin_grid, listMean_lin_grid, listMean_lin_grid]; rfl
  · rw [listMean_rad_grid, listMean_rad_grid, listMean_rad_grid, listMean_rad_grid]; rfl
  · rw [listMean_rad_grid, listMean_rad_grid, listMean_rad_grid, listMean_rad_grid]; rfl
  · rw [listMean_rad_grid, listMean_rad_grid, listMean_rad_grid, listMean_rad_grid]; rfl
  · rw [listMean_rad_grid, listMean_rad_grid, listMean_rad_grid, listMean_rad_grid]; rfl

/-- C9: neither perturbation grid ever contains the offset 0, so no
per-sample secant ratio in any estimator sweep divides an acceleration
by a zero offset. -/
theorem perturbation_grids_avoid_zero :
    (∀ d : ℝ, d ∈ StabilityDerivatives.lin_grid → d ≠ 0)
    ∧ (∀ d : ℝ, d ∈ StabilityDerivatives.rad_grid → d ≠ 0) := by
  constructor
  · intro d hd h0
    rw [h0] at hd
    obtain ⟨k, hk, hval⟩ := List.mem_map.mp hd
    have hk' : k < 100 := List.mem_range.mp hk
    have h2 : (k : ℝ) * 20 = 990 := by linarith
    have h3 : k * 20 = 990 := by exact_mod_cast h2
    omega
  · intro d hd h0
    rw [h0] at hd
    obtain ⟨k, hk, hval⟩ := List.mem_map.mp hd
    have hk' : k < 100 := List.mem_range.mp hk
    have key : ((20 * (k : ℝ) - 990) / (180 * 99)) * Real.pi =
        radians (-10) + (k : ℝ) * ((radians 10 - radians (-10)) / 99) := by
      unfold radians; ring
    rw [hval] at key
    rcases mul_eq_zero.mp key with h | h
    · have h2 : (k : ℝ) * 20 = 990 := by
        have h180 : ((180 : ℝ) * 99) ≠ 0 := by norm_num
        field_simp at h
        linarith
      have h3 : k * 20 = 990 := by exact_mod_cast h2
      omega
    · exact Real.pi_ne_zero h

/-- Witness for C9 at the first entry of each grid. -/
theorem perturbation_grids_avoid_zero_witness :
    ((-10 : ℝ) ∈ StabilityDerivatives.lin_grid ∧ (-10 : ℝ) ≠ 0)
    ∧ (radians (-10) ∈ StabilityDerivatives.rad_grid ∧ radians (-10) ≠ 0) := by
  have hm1 : (-10 : ℝ) ∈ StabilityDerivatives.lin_grid :=
    List.mem_map.mpr ⟨0, List.mem_range.mpr (by norm_num), by norm_num⟩
  have hm2 : radians (-10) ∈ StabilityDerivatives.rad_grid :=
    List.mem_map.mpr ⟨0, List.mem_range.mpr (by norm_num), by norm_num⟩
  exact ⟨⟨hm1, perturbation_grids_avoid_zero.1 (-10) hm1⟩,
    ⟨hm2, perturbation_grids_avoid_zero.2 (radians (-10)) hm2⟩⟩

/-- C7: with `w` fixed and positive, the control-plane angle of attack
is continuous as `u` crosses 0: the one-sided limits from `u > 0` and
from `u < 0` both equal the value computed at `u = 0`, which is the
vertical-translation value `theta_1s - pi/2` (the flight-path angle is
forced to `pi/2` and subtracted from the cyclic). -/
theorem alpha_control_continuous_across_zero_u (w cyc : ℝ) (hw : 0 < w) :
    StateSpace.alpha_control ⟨0, w, 0, 0, 0, cyc⟩ = cyc - Real.pi / 2
    ∧ Filter.Tendsto (fun u : ℝ => StateSpace.alpha_control ⟨u, w, 0, 0, 0, cyc⟩)
        (nhdsWithin 0 (Set.Ioi 0)) (nhds (StateSpace.alpha_control ⟨0, w, 0, 0, 0, cyc⟩))
    ∧ Filter.Tendsto (fun u : ℝ => StateSpace.alpha_control ⟨u, w, 0, 0, 0, cyc⟩)
        (nhdsWithin 0 (Set.Iio 0)) (nhds (StateSpace.alpha_control ⟨0, w, 0, 0, 0, cyc⟩)) := by
  have hval : StateSpace.alpha_control ⟨0, w, 0, 0, 0, cyc⟩ = cyc - Real.pi / 2 := by
    simp [StateSpace.alpha_control, hw]
  refine ⟨hval, ?_, ?_⟩
  · rw [hval]
    have h1 : Filter.Tendsto (fun u : ℝ => w / u) (nhdsWithin 0 (Set.Ioi 0)) Filter.atTop := by
      have h2 := Filter.Tendsto.const_mul_atTop hw (tendsto_inv_zero_atTop (𝕜 := ℝ))
      simpa [div_eq_mul_inv] using h2
    have h3 : Filter.Tendsto (fun u : ℝ => Real.arctan (w / u)) (nhdsWithin 0 (Set.Ioi 0))
        (nhds (Real.pi / 2)) := by
      have := (Real.tendsto_arctan_atTop.mono_right nhdsWithin_le_nhds).comp h1
      simpa [Function.comp] using this
    have h4 : Filter.Tendsto (fun u : ℝ => cyc - Real.arctan (w / u))
        (nhdsWithin 0 (Set.Ioi 0)) (nhds (cyc - Real.pi / 2)) := tendsto_const_nhds.sub h3
    refine h4.congr' ?_
    filter_upwards [self_mem_nhdsWithin] with u hu
    have hu' : (0 : ℝ) < u := hu
    simp [StateSpace.alpha_control, ne_of_gt hu', hu']
  · rw [hval]
    have hneg : Filter.Tendsto (fun u : ℝ => -u) (nhdsWithin 0 (Set.Iio 0))
        (nhdsWithin 0 (Set.Ioi 0)) := by
      show Filter.Tendsto (fun u : ℝ => -u) (nhds 0 ⊓ Filter.principal (Set.Iio 0))
        (nhds 0 ⊓ Filter.principal (Set.Ioi 0))
      refine Filter.Tendsto.inf ?_ ?_
      · simpa using (continuous_neg.tendsto (0 : ℝ))
      · exact Filter.tendsto_principal_principal.mpr
          (fun x hx => Set.mem_Ioi.mpr (by simpa using neg_pos.mpr (Set.mem_Iio.mp hx)))
    have h1 : Filter.Tendsto (fun u : ℝ => w / u) (nhdsWithin 0 (Set.Iio 0)) Filter.atBot := by
      have h2 : Filter.Tendsto (fun u : ℝ => w * u⁻¹) (nhdsWithin 0 (Set.Ioi 0)) Filter.atTop :=
        Filter.Tendsto.const_mul_atTop hw (tendsto_inv_zero_atTop (𝕜 := ℝ))
      have h2' : Filter.Tendsto (fun u : ℝ => w * (-u)⁻¹) (nhdsWithin 0 (Set.Iio 0))
          Filter.atTop := by
        have := h2.comp hneg
        simpa [Function.comp] using this
      have h3 : Filter.Tendsto (fun u : ℝ => -(w * (-u)⁻¹)) (nhdsWithin 0 (Set.Iio 0))
          Filter.atBot := Filter.tendsto_neg_atTop_atBot.comp h2'
      refine h3.congr (fun u => ?_)
      rw [inv_neg, div_eq_mul_inv]
      ring
    have h5 : Filter.Tendsto (fun u : ℝ => Real.arctan (w / u)) (nhdsWithin 0 (Set.Iio 0))
        (nhds (-(Real.pi / 2))) := by
      have := (Real.tendsto_arctan_atBot.mono_right nhdsWithin_le_nhds).comp h1
      simpa [Function.comp] using this
    have h6 : Filter.Tendsto (fun u : ℝ => cyc - (Real.arctan (w / u) + Real.pi))
        (nhdsWithin 0 (Set.Iio 0)) (nhds (cyc - (-(Real.pi / 2) + Real.pi))) :=
      tendsto_const_nhds.sub (h5.add_const Real.pi)
    have heq : cyc - (-(Real.pi / 2) + Real.pi) = cyc - Real.pi / 2 := by ring
    rw [heq] at h6
    refine h6.congr' ?_
    filter_upwards [self_mem_nhdsWithin] with u hu
    have hu' : u < 0 := hu
    simp [StateSpace.alpha_control, ne_of_lt hu', lt_asymm hu']

/-- Witness for C7 at `w = 1`, base cyclic 0. -/
theorem alpha_control_continuous_across_zero_u_witness :
    (0 : ℝ) < 1
    ∧ (StateSpace.alpha_control ⟨0, 1, 0, 0, 0, 0⟩ = 0 - Real.pi / 2
      ∧ Filter.Tendsto (fun u : ℝ => StateSpace.alpha_control ⟨u, 1, 0, 0, 0, 0⟩)
          (nhdsWithin 0 (Set.Ioi 0)) (nhds (StateSpace.alpha_control ⟨0, 1, 0, 0, 0, 0⟩))
      ∧ Filter.Tendsto (fun u : ℝ => StateSpace.alpha_control ⟨u, 1, 0, 0, 0, 0⟩)
          (nhdsWithin 0 (Set.Iio 0)) (nhds (StateSpace.alpha_control ⟨0, 1, 0, 0, 0, 0⟩))) :=
  ⟨by norm_num, alpha_control_continuous_across_zero_u 1 0 (by norm_num)⟩
